import Mathlib

/-
Verification of the basic_usage example program of GitVersion.cmake
(src/examples/basic_usage/main.cpp) against its natural-language
specification.

The program's entire behaviour is: print six fixed-format lines built from
a build-time version descriptor (PROJECT_VERSION, PROJECT_VERSION_MAJOR,
PROJECT_VERSION_MINOR, PROJECT_VERSION_PATCH) to standard output, then
return 0.  We embed the descriptor as a structure, the printed output as a
list of lines (each std::endl terminates one line), and main as a pure
function from the descriptor (and the ignored argument vector) to the pair
of the output lines and the exit status.
-/

/-- The build-time version descriptor supplied to the program: the three
numeric fields and the combined display string.  The C++ stream inserter
prints an int in decimal, also when negative, so the numeric fields are
embedded as Int. -/
structure VersionDescriptor where
  major : Int
  minor : Int
  patch : Int
  displayString : String
deriving DecidableEq, Repr

/-- The literal title string printed by the first output statement of main
(main.cpp line 6). -/
def titleLine : String := "Basic Example Application"

/-- The literal separator string printed by the second output statement of
main (main.cpp line 7). -/
def separatorLine : String := "------------------------"

/-- The six lines main writes to standard output, in program order
(main.cpp lines 6-11): title, separator, then the Version, Major, Minor
and Patch lines.  Each std::endl ends exactly one line. -/
def reportLines (d : VersionDescriptor) : List String :=
  [ titleLine
  , separatorLine
  , "Version: " ++ d.displayString
  , "Major: " ++ toString d.major
  , "Minor: " ++ toString d.minor
  , "Patch: " ++ toString d.patch ]

/-- The whole program: main takes no parameters (int main()), so the
process argument vector is never consumed; the body writes the six report
lines and returns 0 (main.cpp line 13). -/
def runMain (d : VersionDescriptor) (args : List String) : List String × Int :=
  (reportLines d, 0)

/-- C1: for every valid descriptor with non-negative integers M, N, P and
displayString equal to the decimal rendering M.N.P, the reporter produces
exactly six lines, in the fixed order title, separator, Version, Major,
Minor, Patch, with the literal title text "Basic Example Application" and
the separator text unchanged. -/
theorem c1_six_lines_fixed_order (M N P : Int)
    (hM : 0 ≤ M) (hN : 0 ≤ N) (hP : 0 ≤ P)
    (d : VersionDescriptor)
    (hmaj : d.major = M) (hmin : d.minor = N) (hpat : d.patch = P)
    (hdisp : d.displayString =
      toString M ++ "." ++ toString N ++ "." ++ toString P) :
    reportLines d =
      [ "Basic Example Application"
      , "------------------------"
      , "Version: " ++ (toString M ++ "." ++ toString N ++ "." ++ toString P)
      , "Major: " ++ toString M
      , "Minor: " ++ toString N
      , "Patch: " ++ toString P ] ∧
    (reportLines d).length = 6 := by
  subst hmaj hmin hpat
  refine ⟨?_, rfl⟩
  simp [reportLines, titleLine, separatorLine, hdisp]

/-- Witness for C1 at the concrete descriptor (1, 2, 3) with display
string "1.2.3". -/
theorem c1_six_lines_fixed_order_witness :
    reportLines ⟨1, 2, 3, "1.2.3"⟩ =
      [ "Basic Example Application"
      , "------------------------"
      , "Version: 1.2.3"
      , "Major: 1"
      , "Minor: 2"
      , "Patch: 3" ] := by
  have h := c1_six_lines_fixed_order 1 2 3 (by decide) (by decide) (by decide)
    ⟨1, 2, 3, "1.2.3"⟩ rfl rfl rfl (by decide)
  simpa using h.1

/-- C2 counterexample: the report of the descriptor (1, 2, 3) does not
consist of five lines: it has six. -/
theorem c2_not_five_lines :
    (reportLines ⟨1, 2, 3, "1.2.3"⟩).length ≠ 5 := by decide

/-- C2 amended: the run/report operation writes six lines to standard
output, in fixed order, for every pre-populated VersionDescriptor. -/
theorem c2_six_lines_every_descriptor (d : VersionDescriptor) :
    reportLines d =
      [ titleLine
      , separatorLine
      , "Version: " ++ d.displayString
      , "Major: " ++ toString d.major
      , "Minor: " ++ toString d.minor
      , "Patch: " ++ toString d.patch ] ∧
    (reportLines d).length = 6 :=
  ⟨rfl, rfl⟩

/-- C3: for the descriptor (1, 2, 3) with displayString "1.2.3", the
reporter produces exactly the output block of the title, the separator,
"Version: 1.2.3", "Major: 1", "Minor: 2", "Patch: 3". -/
theorem c3_scenario_1_2_3 :
    reportLines ⟨1, 2, 3, "1.2.3"⟩ =
      [ "Basic Example Application"
      , "------------------------"
      , "Version: 1.2.3"
      , "Major: 1"
      , "Minor: 2"
      , "Patch: 3" ] := by decide

/-- C4: for every descriptor and every argument vector, the process exits
with status 0 after the report completes; no other exit status is
produced. -/
theorem c4_exit_status_zero (d : VersionDescriptor) (args : List String) :
    (runMain d args).2 = 0 :=
  rfl

/-- C5: the output is a deterministic function of the descriptor alone:
two runs with the same descriptor produce byte-identical output (and the
same exit status), whatever else differs between the runs. -/
theorem c5_deterministic (d₁ d₂ : VersionDescriptor)
    (args₁ args₂ : List String) (h : d₁ = d₂) :
    runMain d₁ args₁ = runMain d₂ args₂ := by
  subst h
  rfl

/-- Witness for C5: two runs with the descriptor (1, 2, 3) and different
argument vectors agree. -/
theorem c5_deterministic_witness :
    runMain ⟨1, 2, 3, "1.2.3"⟩ [] = runMain ⟨1, 2, 3, "1.2.3"⟩ ["x"] :=
  c5_deterministic ⟨1, 2, 3, "1.2.3"⟩ ⟨1, 2, 3, "1.2.3"⟩ [] ["x"] rfl

/-- C6: for every descriptor, including any with negative or otherwise
malformed field values, the reporter performs no validation and has no
error path: the run always completes the same single linear sequence,
producing all six lines and exit status 0, with no partial-output state. -/
theorem c6_no_validation (major minor patch : Int) (s : String)
    (args : List String) :
    (runMain ⟨major, minor, patch, s⟩ args).1 =
      [ titleLine
      , separatorLine
      , "Version: " ++ s
      , "Major: " ++ toString major
      , "Minor: " ++ toString minor
      , "Patch: " ++ toString patch ] ∧
    (runMain ⟨major, minor, patch, s⟩ args).1.length = 6 ∧
    (runMain ⟨major, minor, patch, s⟩ args).2 = 0 :=
  ⟨rfl, rfl, rfl⟩

/-- C7: under the invariant that displayString is the decimal rendering
major "." minor "." patch, the printed Version line is consistent with the
printed Major, Minor and Patch lines: the three numbers appearing in the
Version line are exactly the numbers printed on the three following
lines. -/
theorem c7_display_consistent (d : VersionDescriptor)
    (hdisp : d.displayString =
      toString d.major ++ "." ++ toString d.minor ++ "." ++ toString d.patch) :
    ∃ a b c : String,
      (reportLines d)[3]? = some ("Major: " ++ a) ∧
      (reportLines d)[4]? = some ("Minor: " ++ b) ∧
      (reportLines d)[5]? = some ("Patch: " ++ c) ∧
      (reportLines d)[2]? =
        some ("Version: " ++ a ++ "." ++ b ++ "." ++ c) := by
  refine ⟨toString d.major, toString d.minor, toString d.patch, rfl, rfl, rfl, ?_⟩
  simp [reportLines, hdisp, String.append_assoc]

/-- Witness for C7 at the concrete descriptor (1, 2, 3) with display
string "1.2.3". -/
theorem c7_display_consistent_witness :
    ∃ a b c : String,
      (reportLines ⟨1, 2, 3, "1.2.3"⟩)[3]? = some ("Major: " ++ a) ∧
      (reportLines ⟨1, 2, 3, "1.2.3"⟩)[4]? = some ("Minor: " ++ b) ∧
      (reportLines ⟨1, 2, 3, "1.2.3"⟩)[5]? = some ("Patch: " ++ c) ∧
      (reportLines ⟨1, 2, 3, "1.2.3"⟩)[2]? =
        some ("Version: " ++ a ++ "." ++ b ++ "." ++ c) :=
  c7_display_consistent ⟨1, 2, 3, "1.2.3"⟩ (by decide)

/-- C8: no command-line arguments are consumed: two invocations with the
same descriptor but different argument vectors produce identical output
and identical exit status. -/
theorem c8_args_ignored (d : VersionDescriptor) (args₁ args₂ : List String) :
    runMain d args₁ = runMain d args₂ :=
  rfl

/-- C9: the separator emitted as the second output line consists of
exactly 24 dash characters, one character fewer than the 25-character
title line above it. -/
theorem c9_separator_24_dashes :
    (∀ d : VersionDescriptor, (reportLines d)[1]? = some separatorLine) ∧
    separatorLine = String.mk (List.replicate 24 '-') ∧
    separatorLine.length = 24 ∧
    titleLine.length = 25 ∧
    separatorLine.length + 1 = titleLine.length :=
  ⟨fun _ => rfl, by decide, by decide, by decide, by decide⟩

/-- C10: the Version line prints the supplied displayString verbatim and
never reconstructs it from the numeric fields: for every descriptor the
third line is "Version: " followed by displayString, and for some
descriptor whose displayString differs from the rendering of its numeric
fields, the Version line disagrees with the Major, Minor and Patch
lines. -/
theorem c10_display_verbatim :
    (∀ d : VersionDescriptor,
      (reportLines d)[2]? = some ("Version: " ++ d.displayString)) ∧
    ∃ d : VersionDescriptor,
      d.displayString ≠
        toString d.major ++ "." ++ toString d.minor ++ "." ++ toString d.patch ∧
      (reportLines d)[2]? ≠
        some ("Version: " ++
          toString d.major ++ "." ++ toString d.minor ++ "." ++ toString d.patch) :=
  ⟨fun _ => rfl, ⟨⟨1, 2, 3, "9.9.9"⟩, by decide, by decide⟩⟩
